import Mathlib

/-!
Shallow embedding of the beamline real-time control core
(`src/core/pid.hpp`, `src/hw/simple_bpm.hpp`, `src/safety/beam_loss_monitor.hpp`,
`src/safety/machine_protection_system.hpp`, and the `RTLoop` control loop /
command dispatcher), with `double` modelled as `ℚ`.
-/

namespace Beamline

/-- The clamping idiom `std::max(lo, std::min(hi, v))` used by `PID::step`
and by `RTLoop::handle_cmd`'s frequency clamp. -/
def clampQ (lo hi v : ℚ) : ℚ := max lo (min hi v)

/-- PID controller state (`struct PID` in `src/core/pid.hpp`).
Defaults mirror the member initializers. -/
structure PID where
  kp : ℚ := 1/10
  ki : ℚ := 0
  kd : ℚ := 0
  setpoint : ℚ := 0
  integ : ℚ := 0
  prev_err : ℚ := 0
  integ_min : ℚ := -1000000
  integ_max : ℚ := 1000000
  last_proportional : ℚ := 0
  last_integral : ℚ := 0
  last_derivative : ℚ := 0
  last_error : ℚ := 0
deriving Repr, DecidableEq

/-- The integrator update inside `PID::step` (the `if (dt > 0.0)` block):
tentative value clamped to `[integ_min, integ_max]`, accepted when the
tentative output stays within bounds, otherwise only under the conditional
integration (anti-windup) rule. -/
def PID.stepInteg (p : PID) (error dt out_min out_max : ℚ) : ℚ :=
  if 0 < dt then
    let tentative := clampQ p.integ_min p.integ_max (p.integ + error * dt)
    let tentativeOut := p.kp * error + p.ki * tentative
    if out_min ≤ tentativeOut ∧ tentativeOut ≤ out_max then
      tentative
    else
      let currentOut := p.kp * error + p.ki * p.integ
      if (out_max < tentativeOut ∧ tentativeOut < currentOut) ∨
         (tentativeOut < out_min ∧ currentOut < tentativeOut) then
        tentative
      else
        p.integ
  else
    p.integ

/-- One control step, `PID::step(measurement, dt, out_min, out_max)`:
returns the updated controller state and the clamped output. The derivative
is computed only when `dt > 1e-9` and `kd ≠ 0` (the division-by-zero guard
in the source). -/
def PID.step (p : PID) (measurement dt out_min out_max : ℚ) : PID × ℚ :=
  let error := p.setpoint - measurement
  let proportional := p.kp * error
  let newInteg := p.stepInteg error dt out_min out_max
  let integral := p.ki * newInteg
  let derivative :=
    if 1/1000000000 < dt ∧ p.kd ≠ 0 then p.kd * (error - p.prev_err) / dt else 0
  let output := clampQ out_min out_max (proportional + integral + derivative)
  ({ p with
      integ := newInteg
      prev_err := error
      last_proportional := proportional
      last_integral := integral
      last_derivative := derivative
      last_error := error }, output)

/-- `PID::reset()`: integrator, previous error and the last-term statistics
are zeroed; gains, setpoint and integrator limits are untouched. -/
def PID.reset (p : PID) : PID :=
  { p with
      integ := 0
      prev_err := 0
      last_proportional := 0
      last_integral := 0
      last_derivative := 0
      last_error := 0 }

/-- `PID::set_setpoint(new_setpoint, reset_derivative)`: with the
reset-derivative option, `prev_err` is repositioned to
`new_setpoint - (setpoint - prev_err)` before the setpoint is replaced. -/
def PID.set_setpoint (p : PID) (new_setpoint : ℚ) (reset_derivative : Bool) : PID :=
  if reset_derivative then
    { p with prev_err := new_setpoint - (p.setpoint - p.prev_err), setpoint := new_setpoint }
  else
    { p with setpoint := new_setpoint }

/-- `PID::set_integrator_limits(min_val, max_val)`: stores the new window and
clamps the current integrator value into it. -/
def PID.set_integrator_limits (p : PID) (min_val max_val : ℚ) : PID :=
  { p with
      integ_min := min_val
      integ_max := max_val
      integ := clampQ min_val max_val p.integ }

/-- Position-sensor state (`struct BPM` in `src/hw/simple_bpm.hpp`).
Only the magnet-coupling offset matters to the claims; `read()` adds
`offset` to the oscillation-plus-noise signal. -/
structure BPM where
  offset : ℚ := 0
deriving Repr, DecidableEq

/-- `BPM::inject_offset(o)` from `src/hw/simple_bpm.hpp`:
the body is `offset = o;` — an assignment of the stored offset. -/
def BPM.inject_offset (b : BPM) (o : ℚ) : BPM :=
  { b with offset := o }

/-- Beam-loss-monitor state (`class BeamLossMonitor`).
Defaults mirror the member initializers (warning 1e-6, abort 1e-5 Gy/s). -/
structure BeamLossMonitor where
  blm_id : String
  threshold_warning : ℚ := 1/1000000
  threshold_abort : ℚ := 1/100000
  loss_rate : ℚ := 0
  warning_active : Bool := false
  abort_active : Bool := false
  total_measurements : ℕ := 0
  warning_count : ℕ := 0
  abort_count : ℕ := 0
deriving Repr, DecidableEq

/-- The simulated loss rate computed inside
`BeamLossMonitor::update_measurement`:
`base_loss * position_factor * current_factor`
with `base_loss = 1e-8`, `position_factor = 1 + |pos| * 0.1`,
`current_factor = current / 1000`. -/
def simulated_loss (beam_current beam_position : ℚ) : ℚ :=
  (1/100000000) * (1 + |beam_position| * (1/10)) * (beam_current / 1000)

/-- Whether this `update_measurement` call takes the abort-edge branch
(`abort_triggered && !abort_active_`), i.e. fires the BLM abort callback
and returns `false`. -/
def BeamLossMonitor.abortEdge (b : BeamLossMonitor) (beam_current beam_position : ℚ) : Prop :=
  b.threshold_abort < simulated_loss beam_current beam_position ∧ b.abort_active = false

instance (b : BeamLossMonitor) (c p : ℚ) : Decidable (b.abortEdge c p) :=
  inferInstanceAs (Decidable (_ ∧ _))

/-- `BeamLossMonitor::update_measurement(beam_current, beam_position)`.
Returns the new state and the Bool the C++ returns (`true` = safe).
On an abort rising edge the source sets `abort_active`, bumps
`abort_count`, invokes the abort callback and returns `false` early,
leaving the warning flags untouched; otherwise warning edge handling and
below-threshold flag clearing run in sequence. -/
def BeamLossMonitor.update_measurement (b : BeamLossMonitor) (beam_current beam_position : ℚ) :
    BeamLossMonitor × Bool :=
  let loss := simulated_loss beam_current beam_position
  if b.threshold_abort < loss ∧ b.abort_active = false then
    ({ b with
        total_measurements := b.total_measurements + 1
        loss_rate := loss
        abort_active := true
        abort_count := b.abort_count + 1 }, false)
  else
    let warning_edge := b.threshold_warning < loss ∧ b.warning_active = false
    let wa1 := if warning_edge then true else b.warning_active
    let wa2 := if b.threshold_warning < loss then wa1 else false
    let aa2 := if b.threshold_abort < loss then b.abort_active else false
    ({ b with
        total_measurements := b.total_measurements + 1
        loss_rate := loss
        warning_active := wa2
        warning_count := if warning_edge then b.warning_count + 1 else b.warning_count
        abort_active := aa2 }, true)

/-- Machine-protection-system state (`class MachineProtectionSystem`). -/
structure MachineProtectionSystem where
  blms : List BeamLossMonitor
  beam_permit : Bool := true
  abort_triggered : Bool := false
  total_aborts : ℕ := 0
deriving Repr, DecidableEq

/-- The default BLM layout built by the `MachineProtectionSystem`
constructor: three monitors, `BLM_UPSTREAM` at -5 m, `BLM_TARGET` at 0,
`BLM_DOWNSTREAM` at +5 m (the position argument of `add_blm` is not stored
by the BLM; `check_safety` feeds every BLM the same beam position). -/
def MachineProtectionSystem.init : MachineProtectionSystem :=
  { blms := [{ blm_id := "BLM_UPSTREAM" }, { blm_id := "BLM_TARGET" },
             { blm_id := "BLM_DOWNSTREAM" }] }

/-- `MachineProtectionSystem::trigger_beam_abort`: latches the abort,
withdraws the beam permit, bumps `total_aborts`, and invokes the
registered `beam_abort_callback_` (and the alarm callback). Each call to
this function is one invocation of the beam-abort callback. -/
def MachineProtectionSystem.trigger_beam_abort (m : MachineProtectionSystem) :
    MachineProtectionSystem :=
  { m with
      abort_triggered := true
      beam_permit := false
      total_aborts := m.total_aborts + 1 }

/-- The BLM scan inside `MachineProtectionSystem::check_safety`: each BLM
is updated in turn; on the first unsafe result the loop breaks, leaving
later BLMs untouched. Returns the updated list and `all_safe`. -/
def check_blms (beam_current beam_position : ℚ) :
    List BeamLossMonitor → List BeamLossMonitor × Bool
  | [] => ([], true)
  | b :: rest =>
    let r := b.update_measurement beam_current beam_position
    if r.2 then
      let t := check_blms beam_current beam_position rest
      (r.1 :: t.1, t.2)
    else
      (r.1 :: rest, false)

/-- `MachineProtectionSystem::check_safety(beam_current, beam_position)`.
Returns `(new state, returned Bool, beam-abort-callback invocations)`.

When a BLM reports unsafe, `trigger_beam_abort` runs twice for that one
transition: once through the BLM's abort callback (wired in `add_blm` to
`handle_blm_abort`, which calls `trigger_beam_abort`), and once directly
in `check_safety`'s `if (!blm_safe)` branch — so `total_aborts` rises by
two and the beam-abort callback is invoked twice. -/
def MachineProtectionSystem.check_safety (m : MachineProtectionSystem)
    (beam_current beam_position : ℚ) : MachineProtectionSystem × Bool × ℕ :=
  if !m.beam_permit then (m, false, 0)
  else if m.abort_triggered then (m, false, 0)
  else
    let t := check_blms beam_current beam_position m.blms
    if t.2 then
      ({ m with blms := t.1 }, true, 0)
    else
      (({ m with blms := t.1 }).trigger_beam_abort.trigger_beam_abort, false, 2)

/-- `BeamLossMonitor::reset_statistics()`: counters and the local warning /
abort flags are cleared; thresholds, identity and `loss_rate_` stay. -/
def BeamLossMonitor.reset_statistics (b : BeamLossMonitor) : BeamLossMonitor :=
  { b with
      total_measurements := 0
      warning_count := 0
      abort_count := 0
      warning_active := false
      abort_active := false }

/-- `MachineProtectionSystem::reset_mps()`: clears the latch, restores the
beam permit, and resets every BLM's statistics; `total_aborts` stays. -/
def MachineProtectionSystem.reset_mps (m : MachineProtectionSystem) :
    MachineProtectionSystem :=
  { m with
      abort_triggered := false
      beam_permit := true
      blms := m.blms.map BeamLossMonitor.reset_statistics }

/-- `MachineProtectionSystem::is_beam_permitted()`. -/
def MachineProtectionSystem.is_beam_permitted (m : MachineProtectionSystem) : Bool :=
  m.beam_permit && !m.abort_triggered

/-- State owned by `struct RTLoop` (rt_loop header) together with the
hardware it drives through `ControlAPI`: the PID, the `Limits` bounds
(`magnet_min`/`magnet_max`, defaults ±2.0), the loop frequency, the local
`period_ns` variable of `run` (nanoseconds, `(long long)(1e9/hz)`), the
enable / emergency flags, the counters, the MPS, the last value written to
the magnet through `api.set_magnet`, and the BPM's injected offset. -/
structure LoopState where
  pid : PID := {}
  magnet_min : ℚ := -2
  magnet_max : ℚ := 2
  hz : ℚ := 1000
  period_ns : ℤ := 1000000
  control_enabled : Bool := true
  emergency_stop : Bool := false
  loop_count : ℕ := 0
  deadline_misses : ℕ := 0
  mps : MachineProtectionSystem := MachineProtectionSystem.init
  magnet : ℚ := 0
  bpm_offset : ℚ := 0
deriving Repr, DecidableEq

/-- Phases 2–3 of one `RTLoop::run` iteration: the `mps.check_safety` call
(during which the beam-abort callback wired in the `RTLoop` constructor
sets `emergency_stop`, clears `control_enabled` and commands the magnet to
zero, once per invocation) followed by the `if (!mps_safe)` block that
forces `emergency_stop := true` and `control_enabled := false`. Returns
the state at the start of the control phase and `mps_safe`. -/
def RTLoop.mps_phase (s : LoopState) (pos intensity : ℚ) : LoopState × Bool :=
  let r := s.mps.check_safety intensity pos
  let s1 :=
    if 0 < r.2.2 then
      { s with emergency_stop := true, control_enabled := false, magnet := 0 }
    else s
  let s2 := { s1 with mps := r.1 }
  let s3 :=
    if !r.2.1 then { s2 with emergency_stop := true, control_enabled := false }
    else s2
  (s3, r.2.1)

/-- One iteration of the `while (running)` body of `RTLoop::run` (the
sensor readings, the step width `dt = duration(period_ns)` and the
watchdog's verdict enter as parameters): MPS phase, then the control phase
— when `control_enabled && !emergency_stop` the PID output is written to
the magnet and `-0.4 * u` is injected into the BPM, otherwise the magnet
is commanded to zero — then the deadline-miss and loop counters. -/
def RTLoop.run_iteration (s : LoopState) (pos intensity dt : ℚ)
    (deadline_missed : Bool) : LoopState :=
  let s3 := (RTLoop.mps_phase s pos intensity).1
  let s4 :=
    if s3.control_enabled && !s3.emergency_stop then
      let r := s3.pid.step pos dt s3.magnet_min s3.magnet_max
      { s3 with pid := r.1, magnet := r.2, bpm_offset := -(2/5) * r.2 }
    else
      { s3 with magnet := 0 }
  { s4 with
      deadline_misses := s4.deadline_misses + (if deadline_missed then 1 else 0)
      loop_count := s4.loop_count + 1 }

/-- A decoded command payload as `RTLoop::handle_cmd` sees it after
`json::parse(s, nullptr, false)`: a payload that fails to parse or is not
an object (`badPayload`), one of the recognized commands with their
optional fields (`j.value(key, default)` semantics), or an object whose
`cmd` is none of the recognized names (`unknownCmd`). -/
inductive Cmd where
  | badPayload : Cmd
  | setPid (kp ki kd : Option ℚ) : Cmd
  | setFreq (hz : Option ℚ) : Cmd
  | setSetpoint (sp : Option ℚ) : Cmd
  | recommission : Cmd
  | emergencyStop : Cmd
  | enableControl (enable : Option Bool) : Cmd
  | getStatus : Cmd
  | unknownCmd : Cmd
deriving Repr, DecidableEq

/-- The `get_status` snapshot object assembled by `RTLoop::handle_cmd`. -/
structure StatusSnapshot where
  loop_frequency : ℚ
  loop_count : ℕ
  deadline_misses : ℕ
  control_enabled : Bool
  emergency_stop : Bool
  mps_safe : Bool
  mps_abort_count : ℕ
  kp : ℚ
  ki : ℚ
  kd : ℚ
  setpoint : ℚ
deriving Repr, DecidableEq

/-- The reply string of `RTLoop::handle_cmd`: the literal ok / not-ok JSON
objects, or the dumped status snapshot. -/
inductive Reply where
  | ok : Reply
  | fail : Reply
  | status (st : StatusSnapshot) : Reply
deriving Repr, DecidableEq

/-- `RTLoop::handle_cmd(s, period_ns)` of the `struct RTLoop` variant:
dispatch on `cmd`, mutating loop state and recomputing `period_ns =
(long long)(1e9/hz)` on `set_freq`; `enable_control` takes effect only
when not in emergency stop and commands the magnet to zero on disable;
unparsable payloads and unrecognized commands fall through to the not-ok
reply with no state change. -/
def RTLoop.handle_cmd (s : LoopState) (c : Cmd) : LoopState × Reply :=
  match c with
  | .badPayload => (s, .fail)
  | .setPid kp ki kd =>
    ({ s with pid :=
        { s.pid with
            kp := kp.getD s.pid.kp
            ki := ki.getD s.pid.ki
            kd := kd.getD s.pid.kd } }, .ok)
  | .setFreq hz =>
    let new_hz := max 10 (min 2000 (hz.getD s.hz))
    ({ s with hz := new_hz, period_ns := ⌊(1000000000 : ℚ) / new_hz⌋ }, .ok)
  | .setSetpoint sp =>
    ({ s with pid := { s.pid with setpoint := sp.getD 0 } }, .ok)
  | .recommission =>
    ({ s with
        pid := { s.pid with integ := 0, prev_err := 0 }
        magnet := 0
        bpm_offset := 0
        emergency_stop := false
        control_enabled := true
        mps := s.mps.reset_mps }, .ok)
  | .emergencyStop =>
    ({ s with emergency_stop := true, control_enabled := false, magnet := 0 }, .ok)
  | .enableControl enable =>
    let e := enable.getD true
    if s.emergency_stop then (s, .ok)
    else
      ({ s with control_enabled := e, magnet := if e then s.magnet else 0 }, .ok)
  | .getStatus =>
    (s, .status
      { loop_frequency := s.hz
        loop_count := s.loop_count
        deadline_misses := s.deadline_misses
        control_enabled := s.control_enabled
        emergency_stop := s.emergency_stop
        mps_safe := s.mps.is_beam_permitted
        mps_abort_count := s.mps.total_aborts
        kp := s.pid.kp
        ki := s.pid.ki
        kd := s.pid.kd
        setpoint := s.pid.setpoint })
  | .unknownCmd => (s, .fail)

/-- The slice of the instrumented `class RTLoop` (`src/control/loop.hpp`)
state that its `enable_control` command branch touches. -/
structure LoopHState where
  control_enabled : Bool
  emergency_stop : Bool
  magnet : ℚ
deriving Repr, DecidableEq

/-- The `enable_control` branch of `RTLoop::handle_command` in
`src/control/loop.hpp`: `control_enabled_.store(enable)` runs
unconditionally — there is no emergency-stop check — and on disable
`api_.emergency_stop()` drives the actuator current to zero. -/
def LoopH.handle_enable_control (s : LoopHState) (enable : Option Bool) : LoopHState :=
  let e := enable.getD true
  { s with control_enabled := e, magnet := if e then s.magnet else 0 }

/-! ## Helper lemmas -/

theorem clampQ_mem (lo hi v : ℚ) (h : lo ≤ hi) :
    lo ≤ clampQ lo hi v ∧ clampQ lo hi v ≤ hi :=
  ⟨le_max_left lo _, max_le h (min_le_left hi v)⟩

theorem PID.stepInteg_cases (p : PID) (e dt lo hi : ℚ) :
    p.stepInteg e dt lo hi = p.integ ∨
      p.stepInteg e dt lo hi = clampQ p.integ_min p.integ_max (p.integ + e * dt) := by
  rw [PID.stepInteg]
  dsimp only
  split_ifs <;> simp

theorem PID.step_fst_integ (p : PID) (y dt lo hi : ℚ) :
    (p.step y dt lo hi).1.integ = p.stepInteg (p.setpoint - y) dt lo hi := rfl

theorem PID.step_integ_mem (p : PID) (y dt lo hi : ℚ)
    (hwin : p.integ_min ≤ p.integ_max)
    (hlo : p.integ_min ≤ p.integ) (hhi : p.integ ≤ p.integ_max) :
    p.integ_min ≤ (p.step y dt lo hi).1.integ ∧
      (p.step y dt lo hi).1.integ ≤ p.integ_max := by
  rw [PID.step_fst_integ]
  rcases PID.stepInteg_cases p (p.setpoint - y) dt lo hi with h | h <;> rw [h]
  · exact ⟨hlo, hhi⟩
  · exact clampQ_mem _ _ _ hwin

theorem mps_phase_keeps_limits (s : LoopState) (pos intensity : ℚ) :
    (RTLoop.mps_phase s pos intensity).1.magnet_min = s.magnet_min ∧
      (RTLoop.mps_phase s pos intensity).1.magnet_max = s.magnet_max := by
  rw [RTLoop.mps_phase]
  dsimp only
  split_ifs <;> simp

theorem mps_phase_unsafe_estop (s : LoopState) (pos intensity : ℚ)
    (h : (RTLoop.mps_phase s pos intensity).2 = false) :
    (RTLoop.mps_phase s pos intensity).1.emergency_stop = true := by
  rw [RTLoop.mps_phase] at h ⊢
  dsimp only at h ⊢
  split_ifs at h ⊢ <;> simp_all

theorem update_measurement_snd_false_iff (b : BeamLossMonitor) (cur pos : ℚ) :
    (b.update_measurement cur pos).2 = false ↔ b.abortEdge cur pos := by
  rw [BeamLossMonitor.update_measurement, BeamLossMonitor.abortEdge]
  dsimp only
  split_ifs with h <;> simp [h]

theorem check_blms_unsafe (cur pos : ℚ) :
    ∀ l : List BeamLossMonitor, (∃ b ∈ l, b.abortEdge cur pos) →
      (check_blms cur pos l).2 = false := by
  intro l
  induction l with
  | nil => rintro ⟨b, hb, _⟩; cases hb
  | cons b rest ih =>
    rintro ⟨c, hc, hedge⟩
    rw [check_blms]
    dsimp only
    rcases List.mem_cons.mp hc with hcb | hcr
    · subst hcb
      have hfalse : (c.update_measurement cur pos).2 = false :=
        (update_measurement_snd_false_iff c cur pos).mpr hedge
      simp [hfalse]
    · split_ifs with hsafe
      · simpa using ih ⟨c, hcr, hedge⟩
      · simp

theorem PID.step_output_mem (p : PID) (y dt lo hi : ℚ) (h : lo ≤ hi) :
    lo ≤ (p.step y dt lo hi).2 ∧ (p.step y dt lo hi).2 ≤ hi := by
  rw [PID.step]
  dsimp only
  exact clampQ_mem _ _ _ h

/-! ## Claim theorems -/

/-- C1: in every iteration of the control loop the value written to the
actuator lies within `[magnet_min, magnet_max]`: when control is active it
is the PID step output, clamped to those bounds inside `PID::step`, and
when control is inactive it is 0, which the precondition
`magnet_min ≤ 0 ≤ magnet_max` places inside the bounds as well. -/
theorem actuator_command_within_magnet_limits (s : LoopState) (pos intensity dt : ℚ)
    (dm : Bool) (h1 : s.magnet_min ≤ 0) (h2 : 0 ≤ s.magnet_max) :
    s.magnet_min ≤ (RTLoop.run_iteration s pos intensity dt dm).magnet ∧
      (RTLoop.run_iteration s pos intensity dt dm).magnet ≤ s.magnet_max := by
  have hlim := mps_phase_keeps_limits s pos intensity
  rw [RTLoop.run_iteration]
  dsimp only
  split_ifs with hc
  · rw [hlim.1, hlim.2] at *
    exact PID.step_output_mem _ pos dt _ _ (h1.trans h2)
  · exact ⟨h1, h2⟩

/-- C1 witness: the default loop state satisfies the precondition and the
magnet command of a concrete iteration stays within ±2. -/
theorem actuator_command_within_magnet_limits_witness :
    ({} : LoopState).magnet_min ≤ (RTLoop.run_iteration {} 1 100 (1/1000) false).magnet ∧
      (RTLoop.run_iteration {} 1 100 (1/1000) false).magnet ≤ ({} : LoopState).magnet_max :=
  actuator_command_within_magnet_limits {} 1 100 (1/1000) false
    (by norm_num : (-2 : ℚ) ≤ 0) (by norm_num : (0 : ℚ) ≤ 2)

/-- C2: if at the start of the control phase `control_enabled` is false,
or `emergency_stop` is true, or `check_safety` returned false, the
actuator is commanded to exactly 0 on that same iteration, regardless of
the PID output. -/
theorem inactive_or_unsafe_commands_zero (s : LoopState) (pos intensity dt : ℚ) (dm : Bool)
    (h : (RTLoop.mps_phase s pos intensity).1.control_enabled = false ∨
         (RTLoop.mps_phase s pos intensity).1.emergency_stop = true ∨
         (RTLoop.mps_phase s pos intensity).2 = false) :
    (RTLoop.run_iteration s pos intensity dt dm).magnet = 0 := by
  have hcond : ((RTLoop.mps_phase s pos intensity).1.control_enabled &&
      !(RTLoop.mps_phase s pos intensity).1.emergency_stop) = false := by
    rcases h with h | h | h
    · simp [h]
    · simp [h]
    · simp [mps_phase_unsafe_estop s pos intensity h]
  rw [RTLoop.run_iteration]
  dsimp only
  rw [hcond]
  simp

/-- C2 witness: an iteration that starts with `emergency_stop` latched
commands the magnet to 0. -/
theorem inactive_or_unsafe_commands_zero_witness :
    (RTLoop.run_iteration ({ emergency_stop := true } : LoopState) 0 100 (1/1000) false).magnet
      = 0 :=
  inactive_or_unsafe_commands_zero { emergency_stop := true } 0 100 (1/1000) false
    (Or.inr (Or.inl (by
      norm_num [RTLoop.mps_phase, MachineProtectionSystem.check_safety, check_blms,
        MachineProtectionSystem.init, BeamLossMonitor.update_measurement, simulated_loss])))

/-- C3 counterexample: with the default MPS (fresh, unlatched) and beam
current 2·10⁶ at position 0, the derived loss rate 2·10⁻⁵ exceeds the
abort threshold 10⁻⁵, and a single `check_safety` call increments
`total_aborts` by two — not by one — and invokes the beam-abort callback
twice, not once. -/
theorem check_safety_abort_single_trigger_counterexample :
    ¬ ((MachineProtectionSystem.init.check_safety 2000000 0).1.total_aborts =
          MachineProtectionSystem.init.total_aborts + 1 ∧
        (MachineProtectionSystem.init.check_safety 2000000 0).2.2 = 1) := by
  norm_num [MachineProtectionSystem.check_safety, check_blms, MachineProtectionSystem.init,
    BeamLossMonitor.update_measurement, simulated_loss,
    MachineProtectionSystem.trigger_beam_abort]

/-- C3 amended: when `check_safety` observes some BLM whose derived loss
rate exceeds its abort threshold and whose abort flag is not yet active,
while the MPS is not already latched, the MPS transitions to
`abort_latched = true` and `beam_permit = false`, but `total_aborts` rises
by exactly two and the registered `beam_abort_callback` is invoked exactly
twice: once through the BLM's abort callback (wired by `add_blm` to
`handle_blm_abort`, which calls `trigger_beam_abort`) and once more by
`check_safety`'s own `trigger_beam_abort("BLM_ABORT", ...)` call. -/
theorem check_safety_abort_double_trigger (m : MachineProtectionSystem) (cur pos : ℚ)
    (h1 : m.beam_permit = true) (h2 : m.abort_triggered = false)
    (h3 : ∃ b ∈ m.blms, b.abortEdge cur pos) :
    (m.check_safety cur pos).1.abort_triggered = true ∧
    (m.check_safety cur pos).1.beam_permit = false ∧
    (m.check_safety cur pos).1.total_aborts = m.total_aborts + 2 ∧
    (m.check_safety cur pos).2.1 = false ∧
    (m.check_safety cur pos).2.2 = 2 := by
  have hu := check_blms_unsafe cur pos m.blms h3
  rw [MachineProtectionSystem.check_safety]
  dsimp only
  rw [h1, h2]
  simp [hu, MachineProtectionSystem.trigger_beam_abort]

/-- C3 witness: the fresh default MPS with beam current 2·10⁶ at position
0 latches, withdraws the permit, and double-counts the abort. -/
theorem check_safety_abort_double_trigger_witness :
    (MachineProtectionSystem.init.check_safety 2000000 0).1.abort_triggered = true ∧
    (MachineProtectionSystem.init.check_safety 2000000 0).1.beam_permit = false ∧
    (MachineProtectionSystem.init.check_safety 2000000 0).1.total_aborts
        = MachineProtectionSystem.init.total_aborts + 2 ∧
    (MachineProtectionSystem.init.check_safety 2000000 0).2.1 = false ∧
    (MachineProtectionSystem.init.check_safety 2000000 0).2.2 = 2 :=
  check_safety_abort_double_trigger MachineProtectionSystem.init 2000000 0 rfl rfl
    ⟨{ blm_id := "BLM_UPSTREAM" }, by simp [MachineProtectionSystem.init],
      by norm_num [BeamLossMonitor.abortEdge, simulated_loss]⟩

/-- C4 counterexample: after `set_integrator_limits(2, 5)` the configured
window is `[2, 5]`, yet `reset()` writes `integ = 0`, strictly below the
window's lower bound — so not every PID operation leaves the integrator
inside the currently configured window. -/
theorem pid_reset_escapes_window_counterexample :
    ((({} : PID).set_integrator_limits 2 5).reset).integ <
      ((({} : PID).set_integrator_limits 2 5).reset).integ_min := by
  norm_num [PID.set_integrator_limits, PID.reset, clampQ]

/-- C4 amended: `step` (for any measurement, dt and output bounds) keeps
the integrator inside the configured window provided the window is
nonempty and the integrator starts inside it; `set_integrator_limits`
places the integrator inside the new window whenever that window is
nonempty; and `reset` leaves the integrator inside the window provided
the window contains 0 (it writes `integ = 0` unconditionally). -/
theorem pid_integrator_window_ops (p : PID) (y dt lo hi mn mx : ℚ) :
    (p.integ_min ≤ p.integ_max → p.integ_min ≤ p.integ → p.integ ≤ p.integ_max →
      p.integ_min ≤ (p.step y dt lo hi).1.integ ∧
        (p.step y dt lo hi).1.integ ≤ p.integ_max) ∧
    (mn ≤ mx →
      mn ≤ (p.set_integrator_limits mn mx).integ ∧
        (p.set_integrator_limits mn mx).integ ≤ mx) ∧
    (p.integ_min ≤ 0 → 0 ≤ p.integ_max →
      p.integ_min ≤ p.reset.integ ∧ p.reset.integ ≤ p.integ_max) := by
  refine ⟨fun hw hl hh => PID.step_integ_mem p y dt lo hi hw hl hh,
    fun hmn => ?_, fun h0l h0h => ?_⟩
  · simpa [PID.set_integrator_limits] using clampQ_mem mn mx p.integ hmn
  · simpa [PID.reset] using ⟨h0l, h0h⟩

/-- C4 witness: all three parts instantiated on the default controller
(window ±10⁶) and on the window `[-3, 3]`. -/
theorem pid_integrator_window_ops_witness :
    (({} : PID).integ_min ≤ (({} : PID).step 1 (1/1000) (-2) 2).1.integ ∧
      (({} : PID).step 1 (1/1000) (-2) 2).1.integ ≤ ({} : PID).integ_max) ∧
    ((-3 : ℚ) ≤ (({} : PID).set_integrator_limits (-3) 3).integ ∧
      (({} : PID).set_integrator_limits (-3) 3).integ ≤ 3) ∧
    (({} : PID).integ_min ≤ ({} : PID).reset.integ ∧
      ({} : PID).reset.integ ≤ ({} : PID).integ_max) :=
  ⟨(pid_integrator_window_ops {} 1 (1/1000) (-2) 2 (-3) 3).1
      (by norm_num : (-1000000 : ℚ) ≤ 1000000)
      (by norm_num : (-1000000 : ℚ) ≤ 0) (by norm_num : (0 : ℚ) ≤ 1000000),
    (pid_integrator_window_ops {} 1 (1/1000) (-2) 2 (-3) 3).2.1
      (by norm_num : (-3 : ℚ) ≤ 3),
    (pid_integrator_window_ops {} 1 (1/1000) (-2) 2 (-3) 3).2.2
      (by norm_num : (-1000000 : ℚ) ≤ 0) (by norm_num : (0 : ℚ) ≤ 1000000)⟩

/-- C5 counterexample: starting from a zero offset, `inject_offset(1)`
followed by `inject_offset(2)` leaves the offset at 2, not at
`0 + 1 + 2 = 3` — `inject_offset` does not add to a running offset. -/
theorem inject_offset_not_additive_counterexample :
    ¬ (((({} : BPM).inject_offset 1).inject_offset 2).offset = ({} : BPM).offset + 1 + 2) := by
  norm_num [BPM.inject_offset]

/-- C5 amended: `BPM::inject_offset(delta)` replaces the stored offset,
so after `inject_offset(a)` then `inject_offset(b)` the offset visible in
the next read is exactly `b` (the last argument), not increased by
`a + b`. -/
theorem inject_offset_replaces_offset (b : BPM) (a c : ℚ) :
    ((b.inject_offset a).inject_offset c).offset = c := rfl

/-- C6 counterexample: in the `src/control/loop.hpp` variant of the
command dispatcher, `enable_control` received while `emergency_stop` is
latched does change `control_enabled` — with the flag latched and
`control_enabled = false`, `enable=true` flips it to true. -/
theorem enable_control_loopH_counterexample :
    ¬ ((LoopH.handle_enable_control ⟨false, true, 0⟩ (some true)).control_enabled = false) := by
  simp [LoopH.handle_enable_control]

/-- C6 amended: in the `struct RTLoop` dispatcher (`handle_cmd`), an
`enable_control` command received while `emergency_stop` is latched
leaves the state (in particular `control_enabled`) unchanged; when not in
emergency stop it sets `control_enabled` to the given value and commands
the actuator to 0 when that value is false. The instrumented
`src/control/loop.hpp` variant instead stores `control_enabled`
unconditionally. -/
theorem handle_cmd_enable_control_respects_estop (s : LoopState) (e : Bool) :
    (s.emergency_stop = true →
      RTLoop.handle_cmd s (Cmd.enableControl (some e)) = (s, Reply.ok)) ∧
    (s.emergency_stop = false →
      (RTLoop.handle_cmd s (Cmd.enableControl (some e))).1.control_enabled = e ∧
      (RTLoop.handle_cmd s (Cmd.enableControl (some e))).2 = Reply.ok ∧
      (e = false → (RTLoop.handle_cmd s (Cmd.enableControl (some e))).1.magnet = 0)) := by
  constructor
  · intro h
    simp [RTLoop.handle_cmd, h]
  · intro h
    refine ⟨?_, ?_, ?_⟩
    · simp [RTLoop.handle_cmd, h]
    · simp [RTLoop.handle_cmd, h]
    · intro he
      simp [RTLoop.handle_cmd, h, he]

/-- C6 witness: with `emergency_stop` latched, `enable_control(true)`
leaves the state untouched; in the default state, `enable_control(false)`
disables control and zeroes the magnet. -/
theorem handle_cmd_enable_control_respects_estop_witness :
    RTLoop.handle_cmd ({ emergency_stop := true } : LoopState)
        (Cmd.enableControl (some true)) = ({ emergency_stop := true }, Reply.ok) ∧
    (RTLoop.handle_cmd ({} : LoopState) (Cmd.enableControl (some false))).1.control_enabled
        = false ∧
    (RTLoop.handle_cmd ({} : LoopState) (Cmd.enableControl (some false))).1.magnet = 0 :=
  ⟨(handle_cmd_enable_control_respects_estop { emergency_stop := true } true).1 rfl,
    ((handle_cmd_enable_control_respects_estop {} false).2 rfl).1,
    ((handle_cmd_enable_control_respects_estop {} false).2 rfl).2.2 rfl⟩

/-- C7: `set_freq` sets the loop frequency to the requested `hz` clamped
to `[10, 2000]` and replies ok; in particular a request of 5 yields 10
and a request of 10000 yields 2000. -/
theorem handle_cmd_set_freq_clamps (s : LoopState) (hz : ℚ) :
    (RTLoop.handle_cmd s (Cmd.setFreq (some hz))).1.hz = clampQ 10 2000 hz ∧
    (RTLoop.handle_cmd s (Cmd.setFreq (some hz))).2 = Reply.ok ∧
    (RTLoop.handle_cmd s (Cmd.setFreq (some 5))).1.hz = 10 ∧
    (RTLoop.handle_cmd s (Cmd.setFreq (some 10000))).1.hz = 2000 := by
  refine ⟨rfl, rfl, ?_, ?_⟩ <;>
    norm_num [RTLoop.handle_cmd, max_def, min_def]

/-- C8: a payload that is not a well-formed JSON object, or whose `cmd`
field is not one of the recognized commands, is answered with the not-ok
reply and leaves the entire loop state (PID gains, setpoint and internal
state, frequency, flags, counters, MPS state, magnet and BPM offset)
unchanged. -/
theorem handle_cmd_invalid_replies_false_state_unchanged (s : LoopState) :
    RTLoop.handle_cmd s Cmd.badPayload = (s, Reply.fail) ∧
      RTLoop.handle_cmd s Cmd.unknownCmd = (s, Reply.fail) :=
  ⟨rfl, rfl⟩

/-- C9: a setpoint change with the reset-derivative option repositions
`prev_err` to `sp_new - (sp_old - prev_err)`, so the derivative term of
the first step after the change equals the derivative term that the same
step would have produced without the setpoint change. -/
theorem set_setpoint_bumpless_derivative (p : PID) (sp_new y dt lo hi : ℚ) :
    ((p.set_setpoint sp_new true).step y dt lo hi).1.last_derivative =
      (p.step y dt lo hi).1.last_derivative := by
  rw [show p.set_setpoint sp_new true =
      { p with prev_err := sp_new - (p.setpoint - p.prev_err), setpoint := sp_new } from rfl]
  rw [PID.step, PID.step]
  dsimp only
  split_ifs with h
  · ring_nf
  · rfl

/-- C10: `PID::step` is total on all inputs; the derivative division by
`dt` happens only when `dt > 1e-9` and `kd ≠ 0` (otherwise the derivative
term is 0), and for `dt ≤ 0` the integrator is left completely unchanged
while the output is still the clamped sum of the remaining terms. -/
theorem pid_step_total_nonpositive_dt (p : PID) (y dt lo hi : ℚ) :
    (¬ ((1/1000000000 : ℚ) < dt ∧ p.kd ≠ 0) →
      (p.step y dt lo hi).1.last_derivative = 0) ∧
    (dt ≤ 0 →
      (p.step y dt lo hi).1.integ = p.integ ∧
      (p.step y dt lo hi).2 = clampQ lo hi (p.kp * (p.setpoint - y) + p.ki * p.integ)) := by
  constructor
  · intro h
    rw [PID.step]
    dsimp only
    rw [if_neg h]
  · intro h
    have hsi : p.stepInteg (p.setpoint - y) dt lo hi = p.integ := by
      rw [PID.stepInteg]
      dsimp only
      rw [if_neg (not_lt.mpr h)]
    have hd : ¬ ((1/1000000000 : ℚ) < dt ∧ p.kd ≠ 0) := by
      rintro ⟨hlt, -⟩
      have hpos : (0:ℚ) < 1/1000000000 := by norm_num
      linarith
    constructor
    · rw [PID.step_fst_integ, hsi]
    · rw [PID.step]
      dsimp only
      rw [hsi, if_neg hd, add_zero]

/-- C10 witness: a step with `dt = -1` on the default controller keeps
the integrator, produces a zero derivative term, and clamps the sum of
the remaining terms. -/
theorem pid_step_total_nonpositive_dt_witness :
    (({} : PID).step 1 (-1) (-2) 2).1.last_derivative = 0 ∧
    (({} : PID).step 1 (-1) (-2) 2).1.integ = ({} : PID).integ ∧
    (({} : PID).step 1 (-1) (-2) 2).2 =
      clampQ (-2) 2 (({} : PID).kp * (({} : PID).setpoint - 1) + ({} : PID).ki * ({} : PID).integ) :=
  ⟨(pid_step_total_nonpositive_dt {} 1 (-1) (-2) 2).1 (by norm_num),
    ((pid_step_total_nonpositive_dt {} 1 (-1) (-2) 2).2 (by norm_num : (-1 : ℚ) ≤ 0)).1,
    ((pid_step_total_nonpositive_dt {} 1 (-1) (-2) 2).2 (by norm_num : (-1 : ℚ) ≤ 0)).2⟩

end Beamline
